import Mathlib

/-!
Verification of the gravitational-wave animation script
(`src/gravitational_wave_animation.py`).

The script is a single sequential numeric pipeline: a fixed mesh grid, a
closed-form orbital trajectory for two masses, a closed-form scalar wave
field, and a frame loop that renders `FPS * DURATION` frames at times
`i / FPS`.  All numeric code is embedded over the real numbers; the python
floats become real-valued functions, `np.linspace`/`np.meshgrid` become
index-to-coordinate functions on `Fin GRID_POINTS`, and the elementwise
numpy arithmetic of `_wave_deformation` becomes a pointwise function on
grids.
-/

open Real

namespace GravitationalWaveAnimation

noncomputable section

/-- Source constant `FPS = 30`. -/
def FPS : ℕ := 30

/-- Source constant `DURATION = 12` (seconds). -/
def DURATION : ℕ := 12

/-- Source constant `TOTAL_FRAMES = FPS * DURATION`. -/
def TOTAL_FRAMES : ℕ := FPS * DURATION

/-- Source constant `SPACE_EXTENT = 6.0`. -/
def SPACE_EXTENT : ℝ := 6

/-- Source constant `GRID_POINTS = 60`. -/
def GRID_POINTS : ℕ := 60

/-- Source constant `WAVE_SPEED = 1.0`. -/
def WAVE_SPEED : ℝ := 1

/-- Source constant `WAVE_AMPLITUDE = 0.6`. -/
def WAVE_AMPLITUDE : ℝ := 0.6

/-- Source constant `WAVE_NUMBER = 2.0`. -/
def WAVE_NUMBER : ℝ := 2

/-- Source constant `GAUSSIAN_FALLOFF = 18.0`. -/
def GAUSSIAN_FALLOFF : ℝ := 18

/-- Source constant `ORBITAL_RADIUS = 1.4`. -/
def ORBITAL_RADIUS : ℝ := 1.4

/-- Source constant `ORBITAL_PERIOD = 4.0` (seconds). -/
def ORBITAL_PERIOD : ℝ := 4

/-- Source constant `MASS_HEIGHT_OFFSET = 0.9`. -/
def MASS_HEIGHT_OFFSET : ℝ := 0.9

/-- The `j`-th entry of `np.linspace(-SPACE_EXTENT, SPACE_EXTENT, GRID_POINTS)`
used by `_build_grid`: `GRID_POINTS` evenly spaced samples from
`-SPACE_EXTENT` to `SPACE_EXTENT` inclusive. -/
def linspace_axis (j : Fin GRID_POINTS) : ℝ :=
  -SPACE_EXTENT + 2 * SPACE_EXTENT * (j.val : ℝ) / ((GRID_POINTS : ℝ) - 1)

/-- Embeds `_build_grid`: `np.meshgrid(axis, axis)` returns the pair of
coordinate grids `X, Y` with `X[i][j] = axis[j]` and `Y[i][j] = axis[i]`. -/
def build_grid :
    (Fin GRID_POINTS → Fin GRID_POINTS → ℝ) × (Fin GRID_POINTS → Fin GRID_POINTS → ℝ) :=
  (fun _i j => linspace_axis j, fun i _j => linspace_axis i)

/-- Embeds `_mass_positions`: the planar positions of the two orbiting
masses at a given time. -/
def mass_positions (time_seconds : ℝ) : (ℝ × ℝ) × (ℝ × ℝ) :=
  let angular_velocity := 2 * π / ORBITAL_PERIOD
  let angle := angular_velocity * time_seconds
  let offset := ORBITAL_RADIUS
  ((offset * Real.cos angle, offset * Real.sin angle),
   (-(offset * Real.cos angle), -(offset * Real.sin angle)))

/-- Embeds `_wave_displacement_at`: the wave displacement at a single
coordinate. -/
def wave_displacement_at (x_coord y_coord time_seconds : ℝ) : ℝ :=
  let radius := Real.sqrt (x_coord ^ 2 + y_coord ^ 2) + 1e-6
  let phase := WAVE_NUMBER * radius - 2 * π / ORBITAL_PERIOD * time_seconds * WAVE_SPEED
  let polarization := (x_coord ^ 2 - y_coord ^ 2) / SPACE_EXTENT ^ 2
  let envelope := Real.exp (-radius ^ 2 / GAUSSIAN_FALLOFF)
  WAVE_AMPLITUDE * Real.sin phase * polarization * envelope

/-- Embeds `_wave_deformation`: the wave displacement over a full coordinate
grid.  The numpy expressions are elementwise, so each intermediate array is a
function of the grid indices. -/
def wave_deformation (x_grid y_grid : Fin GRID_POINTS → Fin GRID_POINTS → ℝ)
    (time_seconds : ℝ) : Fin GRID_POINTS → Fin GRID_POINTS → ℝ :=
  let r := fun i j => Real.sqrt (x_grid i j ^ 2 + y_grid i j ^ 2) + 1e-6
  let phase := fun i j => WAVE_NUMBER * r i j - 2 * π / ORBITAL_PERIOD * time_seconds * WAVE_SPEED
  let polarization := fun i j => (x_grid i j ^ 2 - y_grid i j ^ 2) / SPACE_EXTENT ^ 2
  let envelope := fun i j => Real.exp (-r i j ^ 2 / GAUSSIAN_FALLOFF)
  fun i j => WAVE_AMPLITUDE * Real.sin (phase i j) * polarization i j * envelope i j

/-- The data computed by the per-frame callback `update` of `main`
(the drawing-library side effects carry no numeric content). -/
structure Frame where
  z_grid : Fin GRID_POINTS → Fin GRID_POINTS → ℝ
  first_mass : ℝ × ℝ
  second_mass : ℝ × ℝ
  first_z : ℝ
  second_z : ℝ

/-- The time sample of a frame: `time_seconds = frame_index / FPS` in `update`. -/
def time_of_frame (frame_index : ℕ) : ℝ := (frame_index : ℝ) / (FPS : ℝ)

/-- Embeds the numeric content of the per-frame callback `update`. -/
def update (frame_index : ℕ) : Frame :=
  let time_seconds := time_of_frame frame_index
  let masses := mass_positions time_seconds
  { z_grid := wave_deformation build_grid.1 build_grid.2 time_seconds
    first_mass := masses.1
    second_mass := masses.2
    first_z := wave_displacement_at masses.1.1 masses.1.2 time_seconds + MASS_HEIGHT_OFFSET
    second_z := wave_displacement_at masses.2.1 masses.2.2 time_seconds + MASS_HEIGHT_OFFSET }

/-- Embeds the animation driver: `FuncAnimation(..., frames=TOTAL_FRAMES, ...)`
invokes `update` once for each `frame_index` in `0, 1, ..., TOTAL_FRAMES - 1`,
in order. -/
def rendered_frames : List Frame := (List.range TOTAL_FRAMES).map update

/-- Helper: `wave_displacement_at` with the fixed constants inlined and the
`WAVE_SPEED = 1` factor simplified away. -/
lemma wave_displacement_at_eq (x y t : ℝ) :
    wave_displacement_at x y t =
      0.6 * Real.sin (2 * (Real.sqrt (x ^ 2 + y ^ 2) + 1e-6) - 2 * π / 4 * t) *
        ((x ^ 2 - y ^ 2) / 6 ^ 2) *
        Real.exp (-(Real.sqrt (x ^ 2 + y ^ 2) + 1e-6) ^ 2 / 18) := by
  simp only [wave_displacement_at, WAVE_NUMBER, WAVE_AMPLITUDE, WAVE_SPEED,
    ORBITAL_PERIOD, SPACE_EXTENT, GAUSSIAN_FALLOFF, mul_one]

/-- Helper: the grid function is the pointwise application of the scalar
function (the numpy arithmetic in `_wave_deformation` is elementwise). -/
lemma wave_deformation_eq_displacement
    (xg yg : Fin GRID_POINTS → Fin GRID_POINTS → ℝ) (t : ℝ) (i j : Fin GRID_POINTS) :
    wave_deformation xg yg t i j = wave_displacement_at (xg i j) (yg i j) t := rfl

/-- Helper: the wave displacement vanishes at the origin, since the
polarization factor `(0^2 - 0^2) / SPACE_EXTENT^2` is zero. -/
lemma wave_displacement_at_origin (t : ℝ) : wave_displacement_at 0 0 t = 0 := by
  simp [wave_displacement_at]

/-- C1: for every coordinate and time, both the single-point function
`_wave_displacement_at` and the grid function `_wave_deformation` return
exactly `0.6 * sin(2*r - (2*pi/4)*t) * ((x^2 - y^2)/6^2) * exp(-r^2/18)`
with `r = sqrt(x^2 + y^2) + 1e-6`. -/
theorem wave_field_closed_form (x y t : ℝ) :
    wave_displacement_at x y t =
      0.6 * Real.sin (2 * (Real.sqrt (x ^ 2 + y ^ 2) + 1e-6) - 2 * π / 4 * t) *
        ((x ^ 2 - y ^ 2) / 6 ^ 2) *
        Real.exp (-(Real.sqrt (x ^ 2 + y ^ 2) + 1e-6) ^ 2 / 18) ∧
    ∀ (xg yg : Fin GRID_POINTS → Fin GRID_POINTS → ℝ) (i j : Fin GRID_POINTS),
      wave_deformation xg yg t i j =
        0.6 * Real.sin (2 * (Real.sqrt (xg i j ^ 2 + yg i j ^ 2) + 1e-6) - 2 * π / 4 * t) *
          ((xg i j ^ 2 - yg i j ^ 2) / 6 ^ 2) *
          Real.exp (-(Real.sqrt (xg i j ^ 2 + yg i j ^ 2) + 1e-6) ^ 2 / 18) := by
  refine ⟨wave_displacement_at_eq x y t, fun xg yg i j => ?_⟩
  rw [wave_deformation_eq_displacement]
  exact wave_displacement_at_eq _ _ t

/-- C9: the vectorized grid function `_wave_deformation` and the scalar
function `_wave_displacement_at` agree at every grid cell, for every grid
and every time. -/
theorem wave_deformation_refines_displacement
    (xg yg : Fin GRID_POINTS → Fin GRID_POINTS → ℝ) (t : ℝ) (i j : Fin GRID_POINTS) :
    wave_deformation xg yg t i j = wave_displacement_at (xg i j) (yg i j) t := rfl

/-- C3: for every time, `_mass_positions` returns two antipodal planar
positions of magnitude `ORBITAL_RADIUS = 1.4`, namely
`radius * (cos θ, sin θ)` and its negation, with `θ = 2π t / 4`. -/
theorem mass_positions_antipodal_on_circle (t : ℝ) :
    (mass_positions t).1.1 + (mass_positions t).2.1 = 0 ∧
    (mass_positions t).1.2 + (mass_positions t).2.2 = 0 ∧
    Real.sqrt ((mass_positions t).1.1 ^ 2 + (mass_positions t).1.2 ^ 2) = 1.4 ∧
    Real.sqrt ((mass_positions t).2.1 ^ 2 + (mass_positions t).2.2 ^ 2) = 1.4 ∧
    (mass_positions t).1 = (1.4 * Real.cos (2 * π * t / 4), 1.4 * Real.sin (2 * π * t / 4)) ∧
    (mass_positions t).2.1 = -(mass_positions t).1.1 ∧
    (mass_positions t).2.2 = -(mass_positions t).1.2 := by
  have hangle : 2 * π / ORBITAL_PERIOD * t = 2 * π * t / 4 := by
    simp only [ORBITAL_PERIOD]; ring
  have hmag : ∀ a : ℝ, Real.sqrt ((1.4 * Real.cos a) ^ 2 + (1.4 * Real.sin a) ^ 2) = 1.4 := by
    intro a
    have hsq : (1.4 * Real.cos a) ^ 2 + (1.4 * Real.sin a) ^ 2 = 1.4 ^ 2 := by
      have h := Real.sin_sq_add_cos_sq a
      nlinarith [h]
    rw [hsq, Real.sqrt_sq (by norm_num)]
  have hneg : ∀ a b : ℝ, (-a) ^ 2 + (-b) ^ 2 = a ^ 2 + b ^ 2 := fun a b => by ring
  simp only [mass_positions, ORBITAL_RADIUS, hangle]
  refine ⟨by ring, by ring, hmag _, ?_, by trivial, by trivial, by trivial⟩
  rw [hneg]
  exact hmag _

/-- C7: `_mass_positions` is periodic with period `ORBITAL_PERIOD = 4`:
the positions at `t + 4` equal the positions at `t` exactly. -/
theorem mass_positions_periodic (t : ℝ) :
    mass_positions (t + ORBITAL_PERIOD) = mass_positions t := by
  have hangle : 2 * π / ORBITAL_PERIOD * (t + ORBITAL_PERIOD) =
      2 * π / ORBITAL_PERIOD * t + 2 * π := by
    simp only [ORBITAL_PERIOD]; ring
  simp only [mass_positions, hangle, Real.cos_add_two_pi, Real.sin_add_two_pi]

/-- C5: for every time, the wave displacement at the origin is a well-defined
real number (in this real-valued embedding every value is finite; the `1e-6`
guard keeps the radius positive) and its magnitude is at most
`WAVE_AMPLITUDE = 0.6`; in fact it is exactly zero. -/
theorem wave_field_origin_bounded (t : ℝ) :
    wave_displacement_at 0 0 t = 0 ∧ |wave_displacement_at 0 0 t| ≤ 0.6 :=
  ⟨wave_displacement_at_origin t, by rw [wave_displacement_at_origin t]; norm_num⟩

/-- C6: on the diagonal lines `|x| = |y|` the polarization factor
`(x^2 - y^2) / SPACE_EXTENT^2` vanishes, hence the wave displacement is zero
there for every time, regardless of the radius. -/
theorem wave_field_zero_on_diagonals (x y t : ℝ) (h : |x| = |y|) :
    (x ^ 2 - y ^ 2) / SPACE_EXTENT ^ 2 = 0 ∧ wave_displacement_at x y t = 0 := by
  have hsq : x ^ 2 = y ^ 2 := by
    rw [← sq_abs x, ← sq_abs y, h]
  constructor
  · rw [hsq]; simp
  · simp only [wave_displacement_at, hsq, sub_self, zero_div, mul_zero, zero_mul]

/-- C6 witness: instantiated at `x = 1`, `y = -1`, `t = 5`. -/
theorem wave_field_zero_on_diagonals_witness :
    ((1 : ℝ) ^ 2 - (-1 : ℝ) ^ 2) / SPACE_EXTENT ^ 2 = 0 ∧
      wave_displacement_at 1 (-1) 5 = 0 :=
  wave_field_zero_on_diagonals 1 (-1) 5 (by norm_num)

/-- C8: the wave field model (point and grid form) and the mass trajectory
model are deterministic pure functions of their arguments and the fixed
constants: identical inputs give identical outputs. -/
theorem models_deterministic (x₁ y₁ t₁ x₂ y₂ t₂ : ℝ)
    (hx : x₁ = x₂) (hy : y₁ = y₂) (ht : t₁ = t₂) :
    wave_displacement_at x₁ y₁ t₁ = wave_displacement_at x₂ y₂ t₂ ∧
    (∀ xg yg : Fin GRID_POINTS → Fin GRID_POINTS → ℝ,
      wave_deformation xg yg t₁ = wave_deformation xg yg t₂) ∧
    mass_positions t₁ = mass_positions t₂ := by
  subst hx; subst hy; subst ht
  exact ⟨rfl, fun _ _ => rfl, rfl⟩

/-- C8 witness: instantiated at the concrete input `(1, 2, 3)` given twice. -/
theorem models_deterministic_witness :
    wave_displacement_at 1 2 3 = wave_displacement_at 1 2 3 ∧
    (∀ xg yg : Fin GRID_POINTS → Fin GRID_POINTS → ℝ,
      wave_deformation xg yg 3 = wave_deformation xg yg 3) ∧
    mass_positions 3 = mass_positions 3 :=
  models_deterministic 1 2 3 1 2 3 rfl rfl rfl

/-- C10: on the spatial domain `|x| ≤ 6`, `|y| ≤ 6` the magnitude of the wave
displacement never exceeds `WAVE_AMPLITUDE = 0.6`, and at the exact origin the
displacement is zero for every time. -/
theorem wave_field_amplitude_bound (x y t : ℝ) (hx : |x| ≤ 6) (hy : |y| ≤ 6) :
    |wave_displacement_at x y t| ≤ 0.6 ∧ wave_displacement_at 0 0 t = 0 := by
  constructor
  · have hx2 : x ^ 2 ≤ 36 := by
      have := sq_abs x
      nlinarith [abs_nonneg x]
    have hy2 : y ^ 2 ≤ 36 := by
      have := sq_abs y
      nlinarith [abs_nonneg y]
    have hsin : |Real.sin (2 * (Real.sqrt (x ^ 2 + y ^ 2) + 1e-6) -
        2 * π / 4 * t)| ≤ 1 := Real.abs_sin_le_one _
    have hpol : |(x ^ 2 - y ^ 2) / 6 ^ 2| ≤ 1 := by
      have hnum : |x ^ 2 - y ^ 2| ≤ 36 :=
        abs_le.mpr ⟨by nlinarith [sq_nonneg x, sq_nonneg y], by nlinarith [sq_nonneg x, sq_nonneg y]⟩
      rw [abs_div]
      rw [div_le_one (by norm_num : (0:ℝ) < |(6:ℝ) ^ 2|)]
      calc |x ^ 2 - y ^ 2| ≤ 36 := hnum
        _ ≤ |(6:ℝ) ^ 2| := by norm_num
    have henv : |Real.exp (-(Real.sqrt (x ^ 2 + y ^ 2) + 1e-6) ^ 2 / 18)| ≤ 1 := by
      rw [abs_of_pos (Real.exp_pos _)]
      calc Real.exp (-(Real.sqrt (x ^ 2 + y ^ 2) + 1e-6) ^ 2 / 18)
          ≤ Real.exp 0 := by
            apply Real.exp_le_exp.mpr
            have := sq_nonneg (Real.sqrt (x ^ 2 + y ^ 2) + 1e-6)
            linarith
        _ = 1 := Real.exp_zero
    rw [wave_displacement_at_eq]
    have h1 : |Real.sin (2 * (Real.sqrt (x ^ 2 + y ^ 2) + 1e-6) - 2 * π / 4 * t)| *
        |(x ^ 2 - y ^ 2) / 6 ^ 2| ≤ 1 :=
      mul_le_one₀ hsin (abs_nonneg _) hpol
    calc |0.6 * Real.sin (2 * (Real.sqrt (x ^ 2 + y ^ 2) + 1e-6) - 2 * π / 4 * t) *
          ((x ^ 2 - y ^ 2) / 6 ^ 2) *
          Real.exp (-(Real.sqrt (x ^ 2 + y ^ 2) + 1e-6) ^ 2 / 18)|
        = |(0.6:ℝ)| * (|Real.sin (2 * (Real.sqrt (x ^ 2 + y ^ 2) + 1e-6) - 2 * π / 4 * t)| *
            |(x ^ 2 - y ^ 2) / 6 ^ 2|) *
            |Real.exp (-(Real.sqrt (x ^ 2 + y ^ 2) + 1e-6) ^ 2 / 18)| := by
          rw [abs_mul, abs_mul, abs_mul]; ring
      _ ≤ |(0.6:ℝ)| * 1 * 1 := by
          apply mul_le_mul
          · apply mul_le_mul_of_nonneg_left h1 (abs_nonneg _)
          · exact henv
          · exact abs_nonneg _
          · positivity
      _ ≤ 0.6 := by rw [abs_of_pos (by norm_num : (0:ℝ) < 0.6)]; norm_num
  · exact wave_displacement_at_origin t

/-- C10 witness: instantiated at `x = 1`, `y = 0`, `t = 0`. -/
theorem wave_field_amplitude_bound_witness :
    |wave_displacement_at 1 0 0| ≤ 0.6 ∧ wave_displacement_at 0 0 0 = 0 :=
  wave_field_amplitude_bound 1 0 0 (by norm_num) (by norm_num)

/-- C4: the animation driver renders exactly `FPS * DURATION = 30 * 12 = 360`
frames, the `i`-th rendered frame is `update` evaluated at the time sample
`i / 30` seconds, and the time samples are strictly increasing in the frame
index. -/
theorem animation_driver_frames :
    TOTAL_FRAMES = 30 * 12 ∧
    rendered_frames.length = 360 ∧
    (∀ i : ℕ, i < 360 → rendered_frames[i]? = some (update i)) ∧
    (∀ i : ℕ, time_of_frame i = (i : ℝ) / 30) ∧
    (∀ i j : ℕ, i < j → time_of_frame i < time_of_frame j) := by
  refine ⟨rfl, ?_, ?_, ?_, ?_⟩
  · simp [rendered_frames, TOTAL_FRAMES, FPS, DURATION]
  · intro i hi
    simp [rendered_frames, List.getElem?_map, List.getElem?_range,
      show i < TOTAL_FRAMES by simpa [TOTAL_FRAMES, FPS, DURATION] using hi]
  · intro i
    simp [time_of_frame, FPS]
  · intro i j hij
    have h : (i : ℝ) < (j : ℝ) := by exact_mod_cast hij
    simp only [time_of_frame, FPS, Nat.cast_ofNat]
    exact (div_lt_div_iff_of_pos_right (by norm_num)).mpr h

/-- C4 witness: the fifth frame is rendered from the time sample `5 / 30`,
and the time samples of frames 5 and 6 are in increasing order. -/
theorem animation_driver_frames_witness :
    rendered_frames[5]? = some (update 5) ∧ time_of_frame 5 < time_of_frame 6 :=
  ⟨animation_driver_frames.2.2.1 5 (by norm_num),
   animation_driver_frames.2.2.2.2 5 6 (by norm_num)⟩

/-- Helper: cubic Taylor sandwich for `Real.sin` on a subinterval of `(0, 1]`,
with the endpoints folded into rational bounds. -/
lemma sin_mem_of_interval {x a b L U : ℝ} (ha : a ≤ x) (hb : x ≤ b)
    (h0 : 0 < a) (h1 : b ≤ 1)
    (hL : L ≤ a - b ^ 3 / 6 - b ^ 4 * (5 / 96))
    (hU : b - a ^ 3 / 6 + b ^ 4 * (5 / 96) ≤ U) :
    L ≤ Real.sin x ∧ Real.sin x ≤ U := by
  have hx0 : 0 < x := lt_of_lt_of_le h0 ha
  have habs : |x| ≤ 1 := by rw [abs_of_pos hx0]; linarith
  have hsb := Real.sin_bound habs
  rw [abs_of_pos hx0] at hsb
  have hmp := abs_le.mp hsb
  have h3a : a ^ 3 ≤ x ^ 3 := pow_le_pow_left₀ h0.le ha 3
  have h3b : x ^ 3 ≤ b ^ 3 := pow_le_pow_left₀ hx0.le hb 3
  have h4 : x ^ 4 ≤ b ^ 4 := pow_le_pow_left₀ hx0.le hb 4
  constructor
  · linarith [hmp.1]
  · linarith [hmp.2]

/-- Helper: quartic Taylor upper bound for `Real.exp` on a subinterval of
`[-1, 0]`. -/
lemma exp_le_of_neg_interval {x a b U : ℝ} (ha : a ≤ x) (hb : x ≤ b)
    (h1 : -1 ≤ a) (h2 : b ≤ 0)
    (hU : 1 + b + a ^ 2 / 2 + b ^ 3 / 6 + a ^ 4 * (5 / 96) ≤ U) :
    Real.exp x ≤ U := by
  have habs : |x| ≤ 1 := abs_le.mpr ⟨by linarith, by linarith⟩
  have heb := Real.exp_bound habs (by norm_num : 0 < 4)
  have habs4 : |x| ^ 4 = x ^ 4 := by
    rw [← abs_pow, abs_of_nonneg (by positivity)]
  rw [habs4] at heb
  norm_num [Finset.sum_range_succ, Nat.factorial] at heb
  have hmp := abs_le.mp heb
  have hx2 : x ^ 2 ≤ a ^ 2 := by nlinarith [mul_nonneg (sub_nonneg.mpr ha) (by linarith : (0:ℝ) ≤ -a - x)]
  have hx3 : x ^ 3 ≤ b ^ 3 := by
    have hfac : (0:ℝ) ≤ b ^ 2 + b * x + x ^ 2 := by nlinarith [sq_nonneg (b + x / 2), sq_nonneg x]
    nlinarith [mul_nonneg (sub_nonneg.mpr hb) hfac]
  have hx4 : x ^ 4 ≤ a ^ 4 := by
    have hax : |x| ≤ -a := by rw [abs_of_nonpos (by linarith)]; linarith
    have := pow_le_pow_left₀ (abs_nonneg x) hax 4
    calc x ^ 4 = |x| ^ 4 := habs4.symm
      _ ≤ (-a) ^ 4 := this
      _ = a ^ 4 := by ring
  linarith [hmp.2]

/-- Helper: quartic Taylor lower bound for `Real.exp` on a subinterval of
`[-1, 0]`. -/
lemma exp_ge_of_neg_interval {x a b L : ℝ} (ha : a ≤ x) (hb : x ≤ b)
    (h1 : -1 ≤ a) (h2 : b ≤ 0)
    (hL : L ≤ 1 + a + b ^ 2 / 2 + a ^ 3 / 6 - a ^ 4 * (5 / 96)) :
    L ≤ Real.exp x := by
  have habs : |x| ≤ 1 := abs_le.mpr ⟨by linarith, by linarith⟩
  have heb := Real.exp_bound habs (by norm_num : 0 < 4)
  have habs4 : |x| ^ 4 = x ^ 4 := by
    rw [← abs_pow, abs_of_nonneg (by positivity)]
  rw [habs4] at heb
  norm_num [Finset.sum_range_succ, Nat.factorial] at heb
  have hmp := abs_le.mp heb
  have hx2 : b ^ 2 ≤ x ^ 2 := by nlinarith [mul_nonneg (sub_nonneg.mpr hb) (by linarith : (0:ℝ) ≤ -b - x)]
  have hx3 : a ^ 3 ≤ x ^ 3 := by
    have hfac : (0:ℝ) ≤ x ^ 2 + x * a + a ^ 2 := by nlinarith [sq_nonneg (x + a / 2), sq_nonneg a]
    nlinarith [mul_nonneg (sub_nonneg.mpr ha) hfac]
  have hx4 : x ^ 4 ≤ a ^ 4 := by
    have hax : |x| ≤ -a := by rw [abs_of_nonpos (by linarith)]; linarith
    have := pow_le_pow_left₀ (abs_nonneg x) hax 4
    calc x ^ 4 = |x| ^ 4 := habs4.symm
      _ ≤ (-a) ^ 4 := this
      _ = a ^ 4 := by ring
  linarith [hmp.1]

/-- The row index of the mesh point nearest `(2, 0)`; its `y`-coordinate is
`linspace_axis 29 = -6/59` (the mirror row `30` is equally close). -/
def near_row : Fin GRID_POINTS := ⟨29, by norm_num [GRID_POINTS]⟩

/-- The column index of the mesh point nearest `(2, 0)`; its `x`-coordinate is
`linspace_axis 39 = 114/59`. -/
def near_col : Fin GRID_POINTS := ⟨39, by norm_num [GRID_POINTS]⟩

/-- Helper: the `x`-coordinate of the mesh point nearest `(2, 0)`. -/
lemma axis_near_col : linspace_axis near_col = 114 / 59 := by
  show -SPACE_EXTENT + 2 * SPACE_EXTENT * ((39 : ℕ) : ℝ) / ((GRID_POINTS : ℝ) - 1) = 114 / 59
  norm_num [SPACE_EXTENT, GRID_POINTS]

/-- Helper: the `y`-coordinate of the mesh point nearest `(2, 0)`. -/
lemma axis_near_row : linspace_axis near_row = -6 / 59 := by
  show -SPACE_EXTENT + 2 * SPACE_EXTENT * ((29 : ℕ) : ℝ) / ((GRID_POINTS : ℝ) - 1) = -6 / 59
  norm_num [SPACE_EXTENT, GRID_POINTS]

/-- Helper: on the integer lattice of scaled mesh coordinates (`59 * axis`
values are `12*k - 354`), the squared distance to the scaled target point
`(118, 0)` is at least `52`, the value attained at column `39`, row `29`. -/
lemma scaled_grid_min (i j : ℤ) :
    (52 : ℤ) ≤ (472 - 12 * j) ^ 2 + (12 * i - 354) ^ 2 := by
  have e1 : (472 - 12 * j) ^ 2 = 16 * (3 * (39 - j) + 1) ^ 2 := by ring
  have e2 : (12 * i - 354) ^ 2 = 36 * (2 * i - 59) ^ 2 := by ring
  have g1 : 1 ≤ (3 * (39 - j) + 1) ^ 2 := by
    have h : 3 * (39 - j) + 1 ≤ -1 ∨ 1 ≤ 3 * (39 - j) + 1 := by omega
    rcases h with h | h
    · nlinarith [sq_nonneg (3 * (39 - j) + 1 + 1)]
    · nlinarith [sq_nonneg (3 * (39 - j) + 1 - 1)]
  have g2 : 1 ≤ (2 * i - 59) ^ 2 := by
    have h : 2 * i - 59 ≤ -1 ∨ 1 ≤ 2 * i - 59 := by omega
    rcases h with h | h
    · nlinarith [sq_nonneg (2 * i - 59 + 1)]
    · nlinarith [sq_nonneg (2 * i - 59 - 1)]
  rw [e1, e2]
  linarith

/-- Helper: every `linspace_axis` value is `(12*k - 354) / 59`. -/
lemma linspace_axis_eq (k : Fin GRID_POINTS) :
    linspace_axis k = (12 * (k.val : ℝ) - 354) / 59 := by
  simp only [linspace_axis, SPACE_EXTENT, GRID_POINTS]
  push_cast
  ring

/-- Helper: among all mesh points, `(linspace_axis 39, linspace_axis 29)`
minimises the squared Euclidean distance to the point `(2, 0)`. -/
lemma grid_min_real (i j : Fin GRID_POINTS) :
    ((2:ℝ) - linspace_axis near_col) ^ 2 + ((0:ℝ) - linspace_axis near_row) ^ 2 ≤
      ((2:ℝ) - linspace_axis j) ^ 2 + ((0:ℝ) - linspace_axis i) ^ 2 := by
  have hint := scaled_grid_min (i.val : ℤ) (j.val : ℤ)
  have hcast : (52:ℝ) ≤ (472 - 12 * (j.val : ℝ)) ^ 2 + (12 * (i.val : ℝ) - 354) ^ 2 := by
    exact_mod_cast hint
  have hrhs : ((2:ℝ) - linspace_axis j) ^ 2 + ((0:ℝ) - linspace_axis i) ^ 2 =
      ((472 - 12 * (j.val : ℝ)) ^ 2 + (12 * (i.val : ℝ) - 354) ^ 2) / 3481 := by
    rw [linspace_axis_eq i, linspace_axis_eq j]
    field_simp
    ring
  have hlhs : ((2:ℝ) - linspace_axis near_col) ^ 2 + ((0:ℝ) - linspace_axis near_row) ^ 2 =
      52 / 3481 := by
    rw [axis_near_col, axis_near_row]
    norm_num
  rw [hlhs, hrhs]
  linarith

/-- Helper: the field value at the mesh point nearest `(2, 0)` at `t = 0`,
as a closed-form expression in `sqrt (13032/3481)`. -/
lemma grid_value_eq :
    wave_deformation build_grid.1 build_grid.2 0 near_row near_col =
      0.6 * Real.sin (2 * (Real.sqrt (13032 / 3481) + 1e-6)) * (360 / 3481) *
        Real.exp (-(Real.sqrt (13032 / 3481) + 1e-6) ^ 2 / 18) := by
  have h : wave_deformation build_grid.1 build_grid.2 0 near_row near_col =
      wave_displacement_at (114 / 59) (-6 / 59) 0 := by
    rw [show wave_deformation build_grid.1 build_grid.2 0 near_row near_col =
        wave_displacement_at (linspace_axis near_col) (linspace_axis near_row) 0 from rfl,
      axis_near_col, axis_near_row]
  rw [h, wave_displacement_at_eq]
  norm_num

/-- Helper: rational bounds on the distance from the nearest mesh point to
the origin. -/
lemma sqrt_grid_bounds :
    1.934877 < Real.sqrt (13032 / 3481) ∧ Real.sqrt (13032 / 3481) < 1.934879 :=
  ⟨(Real.lt_sqrt (by norm_num)).mpr (by norm_num),
   (Real.sqrt_lt' (by norm_num)).mpr (by norm_num)⟩

/-- Helper: the field value at the mesh point nearest `(2, 0)` exceeds the
reference value at the exact point `(2, 0)` by more than `1e-6`
(numerically, the gap is about `6.86e-3`). -/
lemma grid_vs_reference_gap :
    1e-6 < 0.6 * Real.sin (2 * (Real.sqrt (13032 / 3481) + 1e-6)) * (360 / 3481) *
        Real.exp (-(Real.sqrt (13032 / 3481) + 1e-6) ^ 2 / 18) -
      0.6 * Real.sin (2 * ((2:ℝ) + 1e-6)) * (1 / 9) *
        Real.exp (-((2:ℝ) + 1e-6) ^ 2 / 18) := by
  obtain ⟨hs1, hs2⟩ := sqrt_grid_bounds
  have hpi1 : 3.141592 < π := Real.pi_gt_d6
  have hpi2 : π < 3.141593 := Real.pi_lt_d6
  -- grid-side sine factor: sin(2r) = -sin(2r - pi) with 2r - pi in [0.728163, 0.728168]
  have hsin_g : Real.sin (2 * (Real.sqrt (13032 / 3481) + 1e-6)) =
      -Real.sin (2 * (Real.sqrt (13032 / 3481) + 1e-6) - π) := by
    have h := Real.sin_add_pi (2 * (Real.sqrt (13032 / 3481) + 1e-6) - π)
    rw [show 2 * (Real.sqrt (13032 / 3481) + 1e-6) - π + π =
        2 * (Real.sqrt (13032 / 3481) + 1e-6) from by ring] at h
    rw [h]
  have hwg1 : (0.728163:ℝ) ≤ 2 * (Real.sqrt (13032 / 3481) + 1e-6) - π := by linarith
  have hwg2 : 2 * (Real.sqrt (13032 / 3481) + 1e-6) - π ≤ 0.728168 := by linarith
  have hSg := sin_mem_of_interval hwg1 hwg2 (by norm_num) (by norm_num)
    (show (0.649:ℝ) ≤ 0.728163 - 0.728168 ^ 3 / 6 - 0.728168 ^ 4 * (5 / 96) by norm_num)
    (show (0.728168:ℝ) - 0.728163 ^ 3 / 6 + 0.728168 ^ 4 * (5 / 96) ≤ 0.679 by norm_num)
  -- reference-side sine factor: sin(4.000002) = -sin(4.000002 - pi)
  have hsin_r : Real.sin (2 * ((2:ℝ) + 1e-6)) =
      -Real.sin (2 * ((2:ℝ) + 1e-6) - π) := by
    have h := Real.sin_add_pi (2 * ((2:ℝ) + 1e-6) - π)
    rw [show 2 * ((2:ℝ) + 1e-6) - π + π = 2 * ((2:ℝ) + 1e-6) from by ring] at h
    rw [h]
  have hwr1 : (0.858409:ℝ) ≤ 2 * ((2:ℝ) + 1e-6) - π := by
    have : 2 * ((2:ℝ) + 1e-6) = 4.000002 := by norm_num
    rw [this]; linarith
  have hwr2 : 2 * ((2:ℝ) + 1e-6) - π ≤ 0.858410 := by
    have : 2 * ((2:ℝ) + 1e-6) = 4.000002 := by norm_num
    rw [this]; linarith
  have hSr := sin_mem_of_interval hwr1 hwr2 (by norm_num) (by norm_num)
    (show (0.7246:ℝ) ≤ 0.858409 - 0.858410 ^ 3 / 6 - 0.858410 ^ 4 * (5 / 96) by norm_num)
    (show (0.858410:ℝ) - 0.858409 ^ 3 / 6 + 0.858410 ^ 4 * (5 / 96) ≤ 1 by norm_num)
  -- grid-side envelope factor
  have hrad1 : (1.934878:ℝ) ≤ Real.sqrt (13032 / 3481) + 1e-6 := by linarith
  have hrad2 : Real.sqrt (13032 / 3481) + 1e-6 ≤ 1.934880 := by linarith
  have hsqlo : (1.934878:ℝ) ^ 2 ≤ (Real.sqrt (13032 / 3481) + 1e-6) ^ 2 :=
    pow_le_pow_left₀ (by norm_num) hrad1 2
  have hsqhi : (Real.sqrt (13032 / 3481) + 1e-6) ^ 2 ≤ (1.934880:ℝ) ^ 2 :=
    pow_le_pow_left₀ (by positivity) hrad2 2
  have hxg1 : (-0.20798671:ℝ) ≤ -(Real.sqrt (13032 / 3481) + 1e-6) ^ 2 / 18 := by
    nlinarith [hsqhi]
  have hxg2 : -(Real.sqrt (13032 / 3481) + 1e-6) ^ 2 / 18 ≤ -0.20798626 := by
    nlinarith [hsqlo]
  have hEg := exp_le_of_neg_interval hxg1 hxg2 (by norm_num) (by norm_num)
    (show (1:ℝ) + (-0.20798626) + (-0.20798671) ^ 2 / 2 + (-0.20798626) ^ 3 / 6 +
      (-0.20798671) ^ 4 * (5 / 96) ≤ 0.8123 by norm_num)
  have hEgpos : 0 < Real.exp (-(Real.sqrt (13032 / 3481) + 1e-6) ^ 2 / 18) := Real.exp_pos _
  -- reference-side envelope factor (exact rational argument)
  have hEr := exp_ge_of_neg_interval (le_refl (-((2:ℝ) + 1e-6) ^ 2 / 18))
    (le_refl (-((2:ℝ) + 1e-6) ^ 2 / 18)) (by norm_num) (by norm_num)
    (show (0.8005:ℝ) ≤ 1 + (-((2:ℝ) + 1e-6) ^ 2 / 18) + (-((2:ℝ) + 1e-6) ^ 2 / 18) ^ 2 / 2 +
      (-((2:ℝ) + 1e-6) ^ 2 / 18) ^ 3 / 6 - (-((2:ℝ) + 1e-6) ^ 2 / 18) ^ 4 * (5 / 96) by norm_num)
  -- combine
  rw [hsin_g, hsin_r]
  have hprod_g : Real.sin (2 * (Real.sqrt (13032 / 3481) + 1e-6) - π) *
      Real.exp (-(Real.sqrt (13032 / 3481) + 1e-6) ^ 2 / 18) ≤ 0.679 * 0.8123 :=
    mul_le_mul hSg.2 hEg hEgpos.le (by norm_num)
  have hprod_r : (0.7246:ℝ) * 0.8005 ≤ Real.sin (2 * ((2:ℝ) + 1e-6) - π) *
      Real.exp (-((2:ℝ) + 1e-6) ^ 2 / 18) :=
    mul_le_mul hSr.1 hEr (by norm_num) (by linarith [hSr.1])
  nlinarith [hprod_g, hprod_r]

/-- C2 counterexample: the 60-point mesh over `[-6, 6]` has no node at
`(2, 0)`; at the node nearest `(2, 0)` (row 29, column 39, coordinates
`(114/59, -6/59)`) the field value at `t = 0` differs from the reference
formula evaluated at the exact point `(2, 0)` (with `r = sqrt 4 + 1e-6`) by
about `6.86e-3`, far more than `1e-6`. -/
theorem nearest_grid_value_differs_from_reference :
    1e-6 < |wave_deformation build_grid.1 build_grid.2 0 near_row near_col -
      0.6 * Real.sin (2 * (Real.sqrt 4 + 1e-6)) * ((2 ^ 2 - 0 ^ 2) / 6 ^ 2) *
        Real.exp (-(Real.sqrt 4 + 1e-6) ^ 2 / 18)| := by
  have hsq4 : Real.sqrt 4 = 2 := by
    rw [show (4:ℝ) = 2 ^ 2 by norm_num, Real.sqrt_sq (by norm_num)]
  have href : (0.6:ℝ) * Real.sin (2 * (Real.sqrt 4 + 1e-6)) * ((2 ^ 2 - 0 ^ 2) / 6 ^ 2) *
      Real.exp (-(Real.sqrt 4 + 1e-6) ^ 2 / 18) =
      0.6 * Real.sin (2 * ((2:ℝ) + 1e-6)) * (1 / 9) *
        Real.exp (-((2:ℝ) + 1e-6) ^ 2 / 18) := by
    rw [hsq4]; norm_num
  rw [grid_value_eq, href]
  calc (1e-6:ℝ)
      < 0.6 * Real.sin (2 * (Real.sqrt (13032 / 3481) + 1e-6)) * (360 / 3481) *
          Real.exp (-(Real.sqrt (13032 / 3481) + 1e-6) ^ 2 / 18) -
        0.6 * Real.sin (2 * ((2:ℝ) + 1e-6)) * (1 / 9) *
          Real.exp (-((2:ℝ) + 1e-6) ^ 2 / 18) := grid_vs_reference_gap
    _ ≤ |0.6 * Real.sin (2 * (Real.sqrt (13032 / 3481) + 1e-6)) * (360 / 3481) *
          Real.exp (-(Real.sqrt (13032 / 3481) + 1e-6) ^ 2 / 18) -
        0.6 * Real.sin (2 * ((2:ℝ) + 1e-6)) * (1 / 9) *
          Real.exp (-((2:ℝ) + 1e-6) ^ 2 / 18)| := le_abs_self _

/-- C2 amended: the mesh point of the constructed 60x60 grid nearest
`(2, 0)` has coordinates `(114/59, -6/59)` (row 29, column 39; row 30 is
tied by symmetry), and the field value there at `t = 0` equals the reference
formula `0.6 * sin(2*r) * ((x^2 - y^2)/6^2) * exp(-r^2/18)` evaluated at
that grid point itself (`r = sqrt(x^2 + y^2) + 1e-6`), exactly — in
particular the two values agree within `1e-6`. -/
theorem nearest_grid_value_matches_reference_at_grid_point :
    (∀ i j : Fin GRID_POINTS,
      ((2:ℝ) - build_grid.1 near_row near_col) ^ 2 +
          ((0:ℝ) - build_grid.2 near_row near_col) ^ 2 ≤
        ((2:ℝ) - build_grid.1 i j) ^ 2 + ((0:ℝ) - build_grid.2 i j) ^ 2) ∧
    wave_deformation build_grid.1 build_grid.2 0 near_row near_col =
      0.6 * Real.sin (2 * (Real.sqrt ((114 / 59:ℝ) ^ 2 + (-6 / 59:ℝ) ^ 2) + 1e-6)) *
        (((114 / 59:ℝ) ^ 2 - (-6 / 59:ℝ) ^ 2) / 6 ^ 2) *
        Real.exp (-(Real.sqrt ((114 / 59:ℝ) ^ 2 + (-6 / 59:ℝ) ^ 2) + 1e-6) ^ 2 / 18) ∧
    |wave_deformation build_grid.1 build_grid.2 0 near_row near_col -
      0.6 * Real.sin (2 * (Real.sqrt ((114 / 59:ℝ) ^ 2 + (-6 / 59:ℝ) ^ 2) + 1e-6)) *
        (((114 / 59:ℝ) ^ 2 - (-6 / 59:ℝ) ^ 2) / 6 ^ 2) *
        Real.exp (-(Real.sqrt ((114 / 59:ℝ) ^ 2 + (-6 / 59:ℝ) ^ 2) + 1e-6) ^ 2 / 18)| ≤
      1e-6 := by
  have heq : wave_deformation build_grid.1 build_grid.2 0 near_row near_col =
      0.6 * Real.sin (2 * (Real.sqrt ((114 / 59:ℝ) ^ 2 + (-6 / 59:ℝ) ^ 2) + 1e-6)) *
        (((114 / 59:ℝ) ^ 2 - (-6 / 59:ℝ) ^ 2) / 6 ^ 2) *
        Real.exp (-(Real.sqrt ((114 / 59:ℝ) ^ 2 + (-6 / 59:ℝ) ^ 2) + 1e-6) ^ 2 / 18) := by
    rw [grid_value_eq]
    norm_num
  refine ⟨fun i j => grid_min_real i j, heq, ?_⟩
  rw [heq, sub_self, abs_zero]
  norm_num

end

end GravitationalWaveAnimation
